import Mathlib

/-!
# GatewayRoute admission validator

A shallow embedding of `webhooks/appmesh/gatewayroute_validator.go` and of the pod
store wrapper `pkg/k8s/wrapper.go`.

Go pointers are `Option` values (`none` is `nil`), a Go `error` is an
`Option String` carrying the text of `Error()`, and a call that may
dereference a nil pointer returns a `GoResult`.
-/

namespace AppMesh

/-! ## Data model (package `apis/appmesh/v1beta2`) -/

/-- Modelled from the spec: the declaration of `appmesh.Hostname` is not among
the sources; the spec gives `HostnameMatch = {Exact: optional string, Suffix:
optional string}`, and the tests build it with `Exact: aws.String(..)`. -/
structure Hostname where
  Exact : Option String
  Suffix : Option String
deriving DecidableEq, Repr

/-- Modelled from the spec: `GRPCMatch = {ServiceName: optional string,
Hostname: HostnameMatch}` (type `appmesh.GRPCGatewayRouteMatch`). -/
structure GRPCGatewayRouteMatch where
  ServiceName : Option String
  Hostname : Hostname
deriving DecidableEq, Repr

/-- Modelled from the spec: `HTTPMatch = {Prefix: optional string, Hostname:
HostnameMatch}` (type `appmesh.HTTPGatewayRouteMatch`, shared by the HTTP and
HTTP2 variants). -/
structure HTTPGatewayRouteMatch where
  Prefix : Option String
  Hostname : Hostname
deriving DecidableEq, Repr

/-- Modelled from the spec: a GRPC route variant carries a `Match`. -/
structure GRPCGatewayRoute where
  Match : GRPCGatewayRouteMatch
deriving DecidableEq, Repr

/-- Modelled from the spec: an HTTP or HTTP2 route variant carries a `Match`. -/
structure HTTPGatewayRoute where
  Match : HTTPGatewayRouteMatch
deriving DecidableEq, Repr

/-- Modelled from the spec: `MeshRef` is a reference `{Name: string, UID: string}`. -/
structure MeshReference where
  Name : String
  UID : String
deriving DecidableEq, Repr

/-- Modelled from the spec: `VirtualGatewayRef` is a reference
`{Name: string, Namespace: optional string, UID: string}`. -/
structure VirtualGatewayReference where
  Namespace : Option String
  Name : String
  UID : String
deriving DecidableEq, Repr

/-- Modelled from the spec: the fields of `appmesh.GatewayRouteSpec` that the
validator reads; every one of them is a pointer in the Go type. -/
structure GatewayRouteSpec where
  AWSName : Option String
  GRPCRoute : Option GRPCGatewayRoute
  HTTP2Route : Option HTTPGatewayRoute
  HTTPRoute : Option HTTPGatewayRoute
  VirtualGatewayRef : Option VirtualGatewayReference
  MeshRef : Option MeshReference
deriving DecidableEq, Repr

/-- Modelled from the spec: the part of `metav1.ObjectMeta` set by the tests. -/
structure ObjectMeta where
  Namespace : String
  Name : String
deriving DecidableEq, Repr

/-- Modelled from the spec: the resource `appmesh.GatewayRoute`. -/
structure GatewayRoute where
  ObjectMeta : ObjectMeta
  Spec : GatewayRouteSpec
deriving DecidableEq, Repr

/-! ## Go runtime conventions -/

/-- A Go `error`: `none` is `nil`, `some msg` is an error whose `Error()` is `msg`. -/
abbrev GoError := Option String

/-- The outcome of a Go call: it returns a value, or it panics with a nil
pointer dereference. -/
inductive GoResult (α : Type) where
  | ret (v : α)
  | nilDeref
deriving DecidableEq, Repr

/-- The call `errors.Errorf(msg)` with a format string that has no verbs. -/
def Errorf (msg : String) : GoError := some msg

/-- The zero value `appmesh.Hostname{}`. -/
def emptyHostname : Hostname := { Exact := none, Suffix := none }

/-- The Go struct comparison `a == b` on `appmesh.Hostname`: field by field, and a
pointer field is compared by identity. It is only ever used against the zero
value, where identity with `nil` is `Option.isNone`. -/
def hostnameIsZero (h : Hostname) : Bool := h.Exact.isNone && h.Suffix.isNone

/-- The library function `strings.Join`: the elements, with `sep` between each
two neighbours. -/
def stringsJoin : List String → String → String
  | [], _ => ""
  | [a], _ => a
  | a :: b :: rest, sep => a ++ sep ++ stringsJoin (b :: rest) sep

/-- The library function `reflect.DeepEqual` at type `*string`: two nil pointers
are equal, a nil and a non-nil pointer differ, two non-nil pointers are equal
when the strings they point to are. -/
def deepEqualStringPtr : Option String → Option String → Bool
  | none, none => true
  | some a, some b => a == b
  | _, _ => false

/-- The library function `reflect.DeepEqual` at type `*appmesh.MeshReference`. -/
def deepEqualMeshRef : Option MeshReference → Option MeshReference → Bool
  | none, none => true
  | some a, some b => a.Name == b.Name && a.UID == b.UID
  | _, _ => false

/-- The library function `reflect.DeepEqual` at type
`*appmesh.VirtualGatewayReference`. -/
def deepEqualVirtualGatewayRef :
    Option VirtualGatewayReference → Option VirtualGatewayReference → Bool
  | none, none => true
  | some a, some b =>
      deepEqualStringPtr a.Namespace b.Namespace && a.Name == b.Name && a.UID == b.UID
  | _, _ => false

/-! ## The validator (`gatewayroute_validator.go`) -/

/-- Source lines 75-92. -/
def validatePrefixAndHostName (pfx : Option String) (hostname : Hostname) : GoError :=
  if pfx.isNone && hostnameIsZero hostname then
    Errorf "Either prefix or hostname must be specified"
  else if pfx.isNone then
    let exact := hostname.Exact
    let suffix := hostname.Suffix
    if exact.isNone && suffix.isNone then
      Errorf "Either exact or suffix match for hostname must be specified"
    else if exact.isSome && suffix.isSome then
      Errorf "Both exact and suffix match for hostname are not allowed. Only one must be specified"
    else
      none
  else
    none

/-- Source lines 65-72: the HTTP2 variant is looked at first, and when it is nil
the `Match` of the HTTP variant is read without a nil check. -/
def checkHTTPRoutes (spec : GatewayRouteSpec) : GoResult GoError :=
  match spec.HTTP2Route with
  | some http2 =>
      let pfx := http2.Match.Prefix
      let hostname := http2.Match.Hostname
      GoResult.ret (validatePrefixAndHostName pfx hostname)
  | none =>
      match spec.HTTPRoute with
      | some http =>
          let pfx := http.Match.Prefix
          let hostname := http.Match.Hostname
          GoResult.ret (validatePrefixAndHostName pfx hostname)
      | none => GoResult.nilDeref

/-- Source lines 53-73. -/
def checkIfHostnameOrPrefixFieldExists (currGR : GatewayRoute) : GoResult GoError :=
  let spec := currGR.Spec
  if spec.GRPCRoute.isNone && spec.HTTP2Route.isNone && spec.HTTPRoute.isNone then
    GoResult.ret (Errorf "No matching route specified")
  else
    match spec.GRPCRoute with
    | some grpc =>
        let servicename := grpc.Match.ServiceName
        let hostname := grpc.Match.Hostname
        if servicename.isNone && hostnameIsZero hostname then
          GoResult.ret (Errorf "Either servicename or hostname must be specified")
        else
          checkHTTPRoutes spec
    | none => checkHTTPRoutes spec

/-- Source lines 32-38, on an object that is a `*appmesh.GatewayRoute`. -/
def ValidateCreate (currGR : GatewayRoute) : GoResult GoError :=
  match checkIfHostnameOrPrefixFieldExists currGR with
  | GoResult.ret (some err) => GoResult.ret (some err)
  | GoResult.ret none => GoResult.ret none
  | GoResult.nilDeref => GoResult.nilDeref

/-- Source lines 96-105: the list `changedImmutableFields` after the three
comparisons. -/
def changedImmutableFields (newGR oldGR : GatewayRoute) : List String :=
  let changed : List String := []
  let changed :=
    if !deepEqualStringPtr newGR.Spec.AWSName oldGR.Spec.AWSName then
      changed ++ ["spec.awsName"] else changed
  let changed :=
    if !deepEqualMeshRef newGR.Spec.MeshRef oldGR.Spec.MeshRef then
      changed ++ ["spec.meshRef"] else changed
  let changed :=
    if !deepEqualVirtualGatewayRef newGR.Spec.VirtualGatewayRef oldGR.Spec.VirtualGatewayRef then
      changed ++ ["spec.virtualGatewayRef"] else changed
  changed

/-- Source lines 95-110. -/
def enforceFieldsImmutability (newGR oldGR : GatewayRoute) : GoError :=
  let changed := changedImmutableFields newGR oldGR
  if changed.length != 0 then
    some ("GatewayRoute" ++ " update may not change these fields: " ++ stringsJoin changed ",")
  else
    none

/-- Source lines 40-47, on objects that are `*appmesh.GatewayRoute`. -/
def ValidateUpdate (newGR oldGR : GatewayRoute) : GoError :=
  match enforceFieldsImmutability newGR oldGR with
  | some err => some err
  | none => none

/-- Source lines 49-51: the object is any `runtime.Object`, and it is not looked at. -/
def ValidateDelete {α : Type} (_obj : α) : GoError := none

/-! ## The pod store wrapper (`pkg/k8s/wrapper.go`) -/

/-- The label map of an object (`map[string]string`), as the pairs it holds. -/
abbrev Labels := List (String × String)

/-- Modelled from the spec: the part of `v1.Pod` the wrapper reads, its namespace, name
and labels. -/
structure Pod where
  Namespace : String
  Name : String
  Labels : Labels
deriving DecidableEq, Repr

/-- An `interface{}` value held by the cache: a `*v1.Pod`, or a value of another
dynamic type, given by the name that `%T` prints for it. -/
inductive CacheItem where
  | pod (p : Pod)
  | other (typeName : String)
deriving DecidableEq, Repr

/-- The value `v1.PodList`, by its `Items`. -/
structure PodList where
  Items : List Pod
deriving DecidableEq, Repr

/-- Modelled from the spec: the indexed read-only object store returned by
`podController.GetDataStore()`, whose declaration is not among the sources. The spec
gives `getByKey(key) -> (object, found, error)`, `listByNamespaceIndex(namespace) ->
(objects, error)`, reached in the code as `ByIndex(indexName, namespace)`, and
`listAll() -> objects`. The object of `GetByKey` is `none` for a nil interface. -/
structure DataStore where
  GetByKey : String → Option CacheItem × Bool × GoError
  ByIndex : String → String → List CacheItem × GoError
  List : List CacheItem

/-- A `labels.Selector`, by its method `Matches`. -/
abbrev Selector := Labels → Bool

/-- The fields of `client.ListOptions` the wrapper reads. -/
structure ListOptions where
  Namespace : String
  LabelSelector : Option Selector

/-- The outcome of a Go call that may fail a type assertion: it returns a value, or
it panics. -/
inductive AssertResult (α : Type) where
  | ret (v : α)
  | typeAssertPanic
deriving DecidableEq, Repr

/-- The library method `types.NamespacedName.String`: namespace, "/" and name. -/
def NamespacedNameString (ns name : String) : String := ns ++ "/" ++ name

/-- Source lines 34-47. The type assertion `obj.(*v1.Pod)` of line 46 panics when the
stored object is not a pod. -/
def GetPod (store : DataStore) (ns name : String) : AssertResult (Option Pod × GoError) :=
  let nsName := NamespacedNameString ns name
  match store.GetByKey nsName with
  | (_, _, some err) => AssertResult.ret (none, some err)
  | (obj, found, none) =>
      if !found then
        AssertResult.ret (none, some ("failed to find pod " ++ nsName))
      else
        match obj with
        | some (CacheItem.pod p) => AssertResult.ret (some p, none)
        | _ => AssertResult.typeAssertPanic

/-- Source lines 75-92: the loop over the looked-up items, with `acc` the value of
`podList.Items` on entry. For a `*v1.Pod` the call `apimeta.Accessor` returns no
error. -/
def collectPods (labelSel : Option Selector) :
    List CacheItem → List Pod → Option PodList × GoError
  | [], acc => (some { Items := acc }, none)
  | item :: rest, acc =>
      match item with
      | CacheItem.other typeName =>
          (none, some ("cache contained " ++ typeName ++ ", which is not a Pod"))
      | CacheItem.pod p =>
          match labelSel with
          | some sel =>
              let lbls := p.Labels
              if !sel lbls then collectPods labelSel rest acc
              else collectPods labelSel rest (acc ++ [p])
          | none => collectPods labelSel rest (acc ++ [p])

/-- Source lines 52-94. The name of the namespace index, the constant `Namespace` of
the package, is declared in a file that is not among the sources and is the parameter
`namespaceIndex`. -/
def ListPodsWithMatchingLabels (store : DataStore) (namespaceIndex : String)
    (opts : ListOptions) : Option PodList × GoError :=
  let lookup : List CacheItem × GoError :=
    if opts.Namespace != "" then store.ByIndex namespaceIndex opts.Namespace
    else (store.List, none)
  match lookup with
  | (_, some err) => (none, some err)
  | (items, none) =>
      let labelSel : Option Selector :=
        match opts.LabelSelector with
        | some sel => some sel
        | none => none
      collectPods labelSel items []

/-! ## Reference notions used to state the properties -/

/-- The number of route variants of a spec that are populated (non-nil). -/
def populatedVariants (spec : GatewayRouteSpec) : Nat :=
  (if spec.GRPCRoute.isSome then 1 else 0) + (if spec.HTTP2Route.isSome then 1 else 0) +
    (if spec.HTTPRoute.isSome then 1 else 0)

/-- The route `r` is the only populated variant of `spec`, as its HTTPRoute or as its
HTTP2Route. -/
abbrev onlyHTTPVariant (spec : GatewayRouteSpec) (r : HTTPGatewayRoute) : Prop :=
  spec.GRPCRoute = none ∧
    ((spec.HTTP2Route = none ∧ spec.HTTPRoute = some r) ∨
      (spec.HTTP2Route = some r ∧ spec.HTTPRoute = none))

/-- The paths of the immutable fields whose values differ between the two objects,
in the declaration order `spec.awsName`, `spec.meshRef`, `spec.virtualGatewayRef`. -/
def differingFieldPaths (newGR oldGR : GatewayRoute) : List String :=
  (if newGR.Spec.AWSName = oldGR.Spec.AWSName then [] else ["spec.awsName"]) ++
    ((if newGR.Spec.MeshRef = oldGR.Spec.MeshRef then [] else ["spec.meshRef"]) ++
      (if newGR.Spec.VirtualGatewayRef = oldGR.Spec.VirtualGatewayRef then []
        else ["spec.virtualGatewayRef"]))

/-! ## Test fixtures (`gatewayroute_validator_test.go`) -/

/-- A spec with every pointer nil. -/
def emptySpec : GatewayRouteSpec :=
  { AWSName := none, GRPCRoute := none, HTTP2Route := none, HTTPRoute := none,
    VirtualGatewayRef := none, MeshRef := none }

/-- The zero value of `metav1.ObjectMeta`. -/
def emptyMeta : ObjectMeta := { Namespace := "", Name := "" }

/-- Test "GRPCGateway Route SevericName specified" (test lines 19-31). -/
def grpcServiceNameRoute : GatewayRoute :=
  { ObjectMeta := emptyMeta,
    Spec := { emptySpec with
      GRPCRoute := some { Match := { ServiceName := some "my-service", Hostname := emptyHostname } } } }

/-- Test "GRPCGateway Route with Valid Hostname specified" (test lines 32-46). -/
def grpcHostnameRoute : GatewayRoute :=
  { ObjectMeta := emptyMeta,
    Spec := { emptySpec with
      GRPCRoute := some { Match := { ServiceName := none,
                                     Hostname := { Exact := some "example.com", Suffix := none } } } } }

/-- Test "GRPCGateway Route with Missing Servicename and Hostname" (test lines 47-57). -/
def grpcEmptyMatchRoute : GatewayRoute :=
  { ObjectMeta := emptyMeta,
    Spec := { emptySpec with
      GRPCRoute := some { Match := { ServiceName := none, Hostname := emptyHostname } } } }

/-- Test "HTTPGateway Route with Missing Prefix and Hostname" (test lines 58-68). -/
def httpEmptyMatchRoute : GatewayRoute :=
  { ObjectMeta := emptyMeta,
    Spec := { emptySpec with
      HTTPRoute := some { Match := { Prefix := none, Hostname := emptyHostname } } } }

/-- An HTTP or HTTP2 route whose `Match` is the zero value. -/
def emptyMatchHTTP : HTTPGatewayRoute :=
  { Match := { Prefix := none, Hostname := emptyHostname } }

/-- An HTTP2-only GatewayRoute whose `Match` is the zero value. -/
def http2EmptyMatchRoute : GatewayRoute :=
  { ObjectMeta := emptyMeta, Spec := { emptySpec with HTTP2Route := some emptyMatchHTTP } }

/-- An HTTP or HTTP2 route with no Prefix and with both Hostname.Exact and
Hostname.Suffix set. -/
def exactAndSuffixHTTP : HTTPGatewayRoute :=
  { Match := { Prefix := none,
               Hostname := { Exact := some "example.com", Suffix := some ".com" } } }

/-- An HTTP-only GatewayRoute with no Prefix and both Hostname.Exact and
Hostname.Suffix set. -/
def httpExactAndSuffixRoute : GatewayRoute :=
  { ObjectMeta := emptyMeta, Spec := { emptySpec with HTTPRoute := some exactAndSuffixHTTP } }

/-- A GatewayRoute with two populated variants: GRPCRoute with ServiceName
"my-service", and HTTP2Route with Prefix "/". -/
def grpcAndHTTP2Route : GatewayRoute :=
  { ObjectMeta := emptyMeta,
    Spec := { emptySpec with
      GRPCRoute := some { Match := { ServiceName := some "my-service", Hostname := emptyHostname } },
      HTTP2Route := some { Match := { Prefix := some "/", Hostname := emptyHostname } } } }

/-- A GatewayRoute with two populated variants and no GRPCRoute: HTTP2Route with the
zero `Match`, and HTTPRoute with both Hostname.Exact and Hostname.Suffix set. -/
def http2AndHTTPRoute : GatewayRoute :=
  { ObjectMeta := emptyMeta,
    Spec := { emptySpec with
      HTTP2Route := some emptyMatchHTTP,
      HTTPRoute := some exactAndSuffixHTTP } }

/-- A GatewayRoute with no route variant at all. -/
def noVariantRoute : GatewayRoute := { ObjectMeta := emptyMeta, Spec := emptySpec }

/-- The metadata shared by the objects of the immutability tests. -/
def testMeta : ObjectMeta := { Namespace := "awesome-ns", Name := "my-gr" }

/-- The old object of every immutability test (test lines 115-132). -/
def oldTestRoute : GatewayRoute :=
  { ObjectMeta := testMeta,
    Spec := { emptySpec with
      AWSName := some "my-gr_awesome-ns",
      MeshRef := some { Name := "my-mesh", UID := "408d3036-7dec-11ea-b156-0e30aabe1ca8" },
      VirtualGatewayRef := some { Name := "my-vg", Namespace := some "gateway-ns",
                                  UID := "346d3036-7dec-11ea-b678-0e30aabe1dg2" } } }

/-- The new object of test "GatewayRoute field awsName changed" (test lines 139-156). -/
def awsNameChangedRoute : GatewayRoute :=
  { oldTestRoute with
    Spec := { oldTestRoute.Spec with AWSName := some "my-gr_awesome-ns_my-cluster" } }

/-- The new object of test "GatewayRoute fields awsName, meshRef and virtualGatewayRef
changed" (test lines 265-282). -/
def allChangedRoute : GatewayRoute :=
  { ObjectMeta := testMeta,
    Spec := { emptySpec with
      AWSName := some "my-gr_awesome-ns-my-cluster",
      MeshRef := some { Name := "another-mesh", UID := "408d3036-7dec-11ea-b156-0e30aabe1ca8" },
      VirtualGatewayRef := some { Name := "another-vg", Namespace := some "gateway-ns",
                                  UID := "346d3036-7dec-11ea-b678-0e30aabe1dg2" } } }

/-- The old object of the immutability tests with `AWSName` left nil. -/
def noAWSNameRoute : GatewayRoute :=
  { oldTestRoute with Spec := { oldTestRoute.Spec with AWSName := none } }

/-- An optional field is nil in exactly one of the two objects. -/
abbrev absentInExactlyOne {α : Type} (a b : Option α) : Prop :=
  (a = none ∧ b ≠ none) ∨ (a ≠ none ∧ b = none)

/-- The message `msg` contains the text `path`. -/
abbrev mentions (msg path : String) : Prop := path.data <:+: msg.data

/-- A pod of namespace "awesome-ns" with label app=web. -/
def webPod : Pod := { Namespace := "awesome-ns", Name := "web-0", Labels := [("app", "web")] }

/-- A pod of namespace "awesome-ns" with label app=db. -/
def dbPod : Pod := { Namespace := "awesome-ns", Name := "db-0", Labels := [("app", "db")] }

/-- A second pod with label app=web. -/
def webPod1 : Pod := { Namespace := "awesome-ns", Name := "web-1", Labels := [("app", "web")] }

/-- A store that holds the three pods: found by key, by the namespace index
"namespace", and in the full list; a lookup in the index "broken" fails. -/
def testStore : DataStore :=
  { GetByKey := fun key =>
      if key = "awesome-ns/web-0" then (some (CacheItem.pod webPod), true, none)
      else if key = "broken/key" then (none, false, some "index corrupted")
      else (none, false, none),
    ByIndex := fun indexName ns =>
      if indexName = "namespace" then
        (if ns = "awesome-ns" then
          [CacheItem.pod webPod, CacheItem.pod dbPod, CacheItem.pod webPod1] else [], none)
      else ([], some "index does not exist"),
    List := [CacheItem.pod webPod, CacheItem.pod dbPod, CacheItem.pod webPod1] }

/-- A store whose object under the key "awesome-ns/svc" is found and is not a pod. -/
def svcStore : DataStore :=
  { GetByKey := fun key =>
      if key = "awesome-ns/svc" then (some (CacheItem.other "*v1.Service"), true, none)
      else (none, false, none),
    ByIndex := fun _ _ => ([], none),
    List := [CacheItem.other "*v1.Service"] }

/-- The selector `app=web`. -/
def appWebSelector : Selector := fun lbls => lbls.contains ("app", "web")

/-! ## Lemmas on the library functions -/

theorem deepEqualStringPtr_eq_decide (a b : Option String) :
    deepEqualStringPtr a b = decide (a = b) := by
  cases a <;> cases b <;> simp [deepEqualStringPtr, Bool.beq_eq_decide_eq]

theorem deepEqualMeshRef_eq_decide (a b : Option MeshReference) :
    deepEqualMeshRef a b = decide (a = b) := by
  rcases a with _ | ⟨n₁, u₁⟩ <;> rcases b with _ | ⟨n₂, u₂⟩ <;> simp [deepEqualMeshRef, Bool.beq_eq_decide_eq]

theorem deepEqualVirtualGatewayRef_eq_decide (a b : Option VirtualGatewayReference) :
    deepEqualVirtualGatewayRef a b = decide (a = b) := by
  rcases a with _ | ⟨s₁, n₁, u₁⟩ <;> rcases b with _ | ⟨s₂, n₂, u₂⟩ <;>
    simp [deepEqualVirtualGatewayRef, deepEqualStringPtr_eq_decide, Bool.beq_eq_decide_eq,
      Bool.and_assoc]

/-- The list built by the three comparisons holds the paths of the fields that
differ, in declaration order. -/
theorem changedImmutableFields_eq (newGR oldGR : GatewayRoute) :
    changedImmutableFields newGR oldGR = differingFieldPaths newGR oldGR := by
  unfold changedImmutableFields differingFieldPaths
  by_cases h₁ : newGR.Spec.AWSName = oldGR.Spec.AWSName <;>
  by_cases h₂ : newGR.Spec.MeshRef = oldGR.Spec.MeshRef <;>
  by_cases h₃ : newGR.Spec.VirtualGatewayRef = oldGR.Spec.VirtualGatewayRef <;>
  simp [h₁, h₂, h₃, deepEqualStringPtr_eq_decide, deepEqualMeshRef_eq_decide,
    deepEqualVirtualGatewayRef_eq_decide]

theorem hostnameIsZero_iff (h : Hostname) : hostnameIsZero h = true ↔ h = emptyHostname := by
  rcases h with ⟨_ | e, _ | s⟩ <;> simp [hostnameIsZero, emptyHostname]

/-- The shared rule never produces the message of the no-variant rule. -/
theorem validatePrefixAndHostName_ne_noMatch (pfx : Option String) (hostname : Hostname) :
    validatePrefixAndHostName pfx hostname ≠ some "No matching route specified" := by
  rcases pfx with _ | p <;> rcases hostname with ⟨_ | e, _ | s⟩ <;>
    simp [validatePrefixAndHostName, hostnameIsZero, Errorf]

/-- The wrapper `ValidateCreate` passes on the outcome of the check unchanged. -/
theorem ValidateCreate_eq (gr : GatewayRoute) :
    ValidateCreate gr = checkIfHostnameOrPrefixFieldExists gr := by
  unfold ValidateCreate
  rcases checkIfHostnameOrPrefixFieldExists gr with (_ | e) | _ <;> rfl

/-- With the GRPC variant nil and exactly one of the HTTP variants populated, the
check is the shared rule on the `Match` of that variant. -/
theorem check_onlyHTTPVariant (gr : GatewayRoute) (r : HTTPGatewayRoute)
    (h : onlyHTTPVariant gr.Spec r) :
    checkIfHostnameOrPrefixFieldExists gr =
      GoResult.ret (validatePrefixAndHostName r.Match.Prefix r.Match.Hostname) := by
  obtain ⟨hg, ⟨h2, h1⟩ | ⟨h2, h1⟩⟩ := h <;>
    simp [checkIfHostnameOrPrefixFieldExists, checkHTTPRoutes, hg, h2, h1]

/-- Every error of the shared rule carries one of its three messages. -/
theorem validatePrefixAndHostName_reasons (pfx : Option String) (hostname : Hostname)
    (msg : String) (h : validatePrefixAndHostName pfx hostname = some msg) :
    msg = "Either prefix or hostname must be specified" ∨
      msg = "Either exact or suffix match for hostname must be specified" ∨
      msg = "Both exact and suffix match for hostname are not allowed. Only one must be specified" := by
  rcases pfx with _ | p <;> rcases hostname with ⟨_ | e, _ | s⟩ <;>
    simp [validatePrefixAndHostName, hostnameIsZero, Errorf] at h <;> simp [← h]

/-- An outcome of the HTTP branches is an outcome of the shared rule. -/
theorem checkHTTPRoutes_ret (spec : GatewayRouteSpec) (e : GoError)
    (h : checkHTTPRoutes spec = GoResult.ret e) :
    ∃ pfx hostname, validatePrefixAndHostName pfx hostname = e := by
  unfold checkHTTPRoutes at h
  rcases h2 : spec.HTTP2Route with _ | r2
  · rcases h1 : spec.HTTPRoute with _ | r1
    · simp [h2, h1] at h
    · simp only [h2, h1, GoResult.ret.injEq] at h
      exact ⟨_, _, h⟩
  · simp only [h2, GoResult.ret.injEq] at h
    exact ⟨_, _, h⟩

/-- The outcome of the update check, by the list of differing paths. -/
theorem enforceFieldsImmutability_eq (newGR oldGR : GatewayRoute) :
    enforceFieldsImmutability newGR oldGR =
      if differingFieldPaths newGR oldGR = [] then none
      else some ("GatewayRoute update may not change these fields: " ++
        String.intercalate "," (differingFieldPaths newGR oldGR)) := by
  unfold enforceFieldsImmutability
  rw [changedImmutableFields_eq]
  unfold differingFieldPaths
  by_cases h₁ : newGR.Spec.AWSName = oldGR.Spec.AWSName <;>
  by_cases h₂ : newGR.Spec.MeshRef = oldGR.Spec.MeshRef <;>
  by_cases h₃ : newGR.Spec.VirtualGatewayRef = oldGR.Spec.VirtualGatewayRef
  all_goals simp only [h₁, h₂, h₃, if_true, if_false]
  all_goals decide

theorem differingFieldPaths_comm (a b : GatewayRoute) :
    differingFieldPaths a b = differingFieldPaths b a := by
  unfold differingFieldPaths
  simp only [@eq_comm _ a.Spec.AWSName, @eq_comm _ a.Spec.MeshRef,
    @eq_comm _ a.Spec.VirtualGatewayRef]

theorem ne_of_absentInExactlyOne {α : Type} {a b : Option α} (h : absentInExactlyOne a b) :
    a ≠ b := by
  rcases h with ⟨ha, hb⟩ | ⟨ha, hb⟩
  · intro hab; exact hb (hab ▸ ha)
  · intro hab; exact ha (hab ▸ hb)

/-- The loop appends to the accumulator the pods the selector matches, in order. -/
theorem collectPods_pods (labelSel : Option Selector) (pods acc : List Pod) :
    collectPods labelSel (pods.map CacheItem.pod) acc =
      (some { Items := acc ++
        (match labelSel with
          | none => pods
          | some sel => pods.filter (fun p => sel p.Labels)) }, none) := by
  induction pods generalizing acc with
  | nil => cases labelSel <;> simp [collectPods]
  | cons p rest ih =>
    cases labelSel with
    | none => simp [collectPods, ih]
    | some sel =>
      by_cases hm : sel p.Labels = true
      · simp [collectPods, ih, hm, List.filter_cons]
      · simp [collectPods, ih, hm, List.filter_cons]

/-! ## Create: the structural rules -/

/-- C1: on the two GRPC-only objects of the test table (ServiceName "my-service" with
an empty Hostname; Hostname.Exact "example.com" with no ServiceName), which the tests
expect to be accepted, `ValidateCreate` does not return: after the GRPC check passes
the code falls through to the HTTP branch and reads `Match` through the nil
`HTTPRoute` pointer. -/
theorem C1_grpc_only_reads_nil_http_route :
    ValidateCreate grpcServiceNameRoute = GoResult.nilDeref ∧
      ValidateCreate grpcHostnameRoute = GoResult.nilDeref ∧
      ValidateCreate grpcServiceNameRoute ≠ GoResult.ret none ∧
      ValidateCreate grpcHostnameRoute ≠ GoResult.ret none := by
  decide

/-- C4: a GatewayRoute in which none of GRPCRoute, HTTP2Route, HTTPRoute is populated
is rejected by `ValidateCreate` with the message "No matching route specified". -/
theorem C4_no_variant_rejected (gr : GatewayRoute)
    (h : gr.Spec.GRPCRoute = none ∧ gr.Spec.HTTP2Route = none ∧ gr.Spec.HTTPRoute = none) :
    ValidateCreate gr = GoResult.ret (some "No matching route specified") := by
  obtain ⟨h₁, h₂, h₃⟩ := h
  simp [ValidateCreate, checkIfHostnameOrPrefixFieldExists, Errorf, h₁, h₂, h₃]

theorem C4_no_variant_rejected_witness :
    (noVariantRoute.Spec.GRPCRoute = none ∧ noVariantRoute.Spec.HTTP2Route = none ∧
        noVariantRoute.Spec.HTTPRoute = none) ∧
      ValidateCreate noVariantRoute = GoResult.ret (some "No matching route specified") :=
  ⟨by decide, C4_no_variant_rejected noVariantRoute (by decide)⟩

/-- C5: a GatewayRoute with more than one populated variant is not rejected with "No
matching route specified", which is the rule for no populated variant. A populated
GRPCRoute with ServiceName absent and Hostname empty is rejected with "Either
servicename or hostname must be specified"; with GRPCRoute nil, so that HTTP2Route and
HTTPRoute are both populated, the result is that of `validatePrefixAndHostName` on the
Match of HTTP2Route. -/
theorem C5_several_variants_not_no_route (gr : GatewayRoute)
    (h : 2 ≤ populatedVariants gr.Spec) :
    ValidateCreate gr ≠ GoResult.ret (some "No matching route specified") ∧
      (∀ g, gr.Spec.GRPCRoute = some g → g.Match.ServiceName = none →
          g.Match.Hostname = emptyHostname →
        ValidateCreate gr =
          GoResult.ret (some "Either servicename or hostname must be specified")) ∧
      (gr.Spec.GRPCRoute = none → ∃ r, gr.Spec.HTTP2Route = some r ∧
        ValidateCreate gr =
          GoResult.ret (validatePrefixAndHostName r.Match.Prefix r.Match.Hostname)) := by
  rw [ValidateCreate_eq]
  have hne := validatePrefixAndHostName_ne_noMatch
  cases hg : gr.Spec.GRPCRoute with
  | none =>
    cases h2 : gr.Spec.HTTP2Route with
    | none => simp [populatedVariants, hg, h2] at h; split at h <;> omega
    | some r2 =>
      simp [checkIfHostnameOrPrefixFieldExists, checkHTTPRoutes, hg, h2, hne]
  | some g =>
    by_cases hz : g.Match.ServiceName = none ∧ g.Match.Hostname = emptyHostname
    · simp [checkIfHostnameOrPrefixFieldExists, hg, hz, hostnameIsZero, emptyHostname, Errorf]
    · cases h2 : gr.Spec.HTTP2Route with
      | some r2 =>
        simp [checkIfHostnameOrPrefixFieldExists, checkHTTPRoutes, hg, h2, hne, hostnameIsZero_iff, hz]
        exact fun a b => absurd ⟨a, b⟩ hz
      | none =>
        cases h1 : gr.Spec.HTTPRoute with
        | none => simp [populatedVariants, hg, h2, h1] at h
        | some r1 =>
          simp [checkIfHostnameOrPrefixFieldExists, checkHTTPRoutes, hg, h2, h1, hne,
            hostnameIsZero_iff, hz]
          exact fun a b => absurd ⟨a, b⟩ hz

theorem C5_several_variants_not_no_route_witness :
    2 ≤ populatedVariants http2AndHTTPRoute.Spec ∧
      ValidateCreate http2AndHTTPRoute ≠ GoResult.ret (some "No matching route specified") ∧
      ValidateCreate http2AndHTTPRoute =
        GoResult.ret (some "Either prefix or hostname must be specified") :=
  ⟨by decide, (C5_several_variants_not_no_route http2AndHTTPRoute (by decide)).1,
    by decide⟩

/-- Counterexample to C5 as stated: the GatewayRoute with both GRPCRoute (ServiceName
"my-service") and HTTP2Route (Prefix "/") populated is accepted by `ValidateCreate`,
not rejected with "No matching route specified". -/
theorem C5_counterexample :
    2 ≤ populatedVariants grpcAndHTTP2Route.Spec ∧
      ValidateCreate grpcAndHTTP2Route = GoResult.ret none ∧
      ValidateCreate grpcAndHTTP2Route ≠ GoResult.ret (some "No matching route specified") := by
  decide

/-- C6: a GatewayRoute whose GRPCRoute is populated with ServiceName absent and both
Hostname.Exact and Hostname.Suffix unset is rejected by `ValidateCreate` with "Either
servicename or hostname must be specified", whatever HTTP2Route and HTTPRoute hold. -/
theorem C6_grpc_empty_match_rejected (gr : GatewayRoute) (g : GRPCGatewayRoute)
    (hg : gr.Spec.GRPCRoute = some g) (hs : g.Match.ServiceName = none)
    (he : g.Match.Hostname.Exact = none) (hx : g.Match.Hostname.Suffix = none) :
    ValidateCreate gr =
      GoResult.ret (some "Either servicename or hostname must be specified") := by
  rw [ValidateCreate_eq]
  simp [checkIfHostnameOrPrefixFieldExists, hostnameIsZero, Errorf, hg, hs, he, hx]

theorem C6_grpc_empty_match_rejected_witness :
    grpcEmptyMatchRoute.Spec.GRPCRoute =
        some { Match := { ServiceName := none, Hostname := emptyHostname } } ∧
      ValidateCreate grpcEmptyMatchRoute =
        GoResult.ret (some "Either servicename or hostname must be specified") :=
  ⟨by decide,
    C6_grpc_empty_match_rejected grpcEmptyMatchRoute
      { Match := { ServiceName := none, Hostname := emptyHostname } }
      (by decide) (by decide) (by decide) (by decide)⟩

/-- C7: a GatewayRoute whose only populated variant is HTTPRoute, or whose only
populated variant is HTTP2Route, with that variant's Match.Prefix absent and its
Hostname empty (Exact and Suffix both unset), is rejected by `ValidateCreate` with
"Either prefix or hostname must be specified". -/
theorem C7_http_empty_match_rejected (gr : GatewayRoute) (r : HTTPGatewayRoute)
    (h : onlyHTTPVariant gr.Spec r) (hp : r.Match.Prefix = none)
    (hz : r.Match.Hostname = emptyHostname) :
    ValidateCreate gr = GoResult.ret (some "Either prefix or hostname must be specified") := by
  rw [ValidateCreate_eq, check_onlyHTTPVariant gr r h, hp, hz]
  rfl

theorem C7_http_empty_match_rejected_witness :
    onlyHTTPVariant httpEmptyMatchRoute.Spec emptyMatchHTTP ∧
      ValidateCreate httpEmptyMatchRoute =
        GoResult.ret (some "Either prefix or hostname must be specified") :=
  ⟨by decide,
    C7_http_empty_match_rejected httpEmptyMatchRoute emptyMatchHTTP (by decide) (by decide)
      (by decide)⟩

/-- C8: a GatewayRoute whose only populated variant is HTTPRoute or HTTP2Route, with
that variant's Match.Prefix absent and its Hostname.Exact and Hostname.Suffix both
absent, is rejected by `ValidateCreate` with "Either prefix or hostname must be
specified", and not with "Either exact or suffix match for hostname must be
specified". -/
theorem C8_http_no_exact_no_suffix_rejected (gr : GatewayRoute) (r : HTTPGatewayRoute)
    (h : onlyHTTPVariant gr.Spec r) (hp : r.Match.Prefix = none)
    (he : r.Match.Hostname.Exact = none) (hx : r.Match.Hostname.Suffix = none) :
    ValidateCreate gr = GoResult.ret (some "Either prefix or hostname must be specified") ∧
      ValidateCreate gr ≠
        GoResult.ret (some "Either exact or suffix match for hostname must be specified") := by
  have hv : ValidateCreate gr =
      GoResult.ret (some "Either prefix or hostname must be specified") := by
    rw [ValidateCreate_eq, check_onlyHTTPVariant gr r h, hp]
    simp [validatePrefixAndHostName, hostnameIsZero, Errorf, he, hx]
  refine ⟨hv, ?_⟩
  rw [hv]
  decide

theorem C8_http_no_exact_no_suffix_rejected_witness :
    onlyHTTPVariant http2EmptyMatchRoute.Spec emptyMatchHTTP ∧
      ValidateCreate http2EmptyMatchRoute =
        GoResult.ret (some "Either prefix or hostname must be specified") :=
  ⟨by decide,
    (C8_http_no_exact_no_suffix_rejected http2EmptyMatchRoute emptyMatchHTTP (by decide)
      (by decide) (by decide) (by decide)).1⟩

/-- Counterexample to C8 as stated: the HTTP-only GatewayRoute of the test table, whose Match has
no Prefix, no Hostname.Exact and no Hostname.Suffix, is rejected with "Either prefix or
hostname must be specified", which is not the message the claim names. -/
theorem C8_counterexample :
    onlyHTTPVariant httpEmptyMatchRoute.Spec emptyMatchHTTP ∧
      emptyMatchHTTP.Match.Prefix = none ∧ emptyMatchHTTP.Match.Hostname.Exact = none ∧
      emptyMatchHTTP.Match.Hostname.Suffix = none ∧
      ValidateCreate httpEmptyMatchRoute ≠
        GoResult.ret (some "Either exact or suffix match for hostname must be specified") := by
  decide

/-- C9: a GatewayRoute whose only populated variant is HTTPRoute or HTTP2Route, with
that variant's Match.Prefix absent and its Hostname.Exact and Hostname.Suffix both set,
is rejected by `ValidateCreate` with "Both exact and suffix match for hostname are not
allowed. Only one must be specified". -/
theorem C9_http_exact_and_suffix_rejected (gr : GatewayRoute) (r : HTTPGatewayRoute)
    (h : onlyHTTPVariant gr.Spec r) (hp : r.Match.Prefix = none)
    (he : r.Match.Hostname.Exact ≠ none) (hx : r.Match.Hostname.Suffix ≠ none) :
    ValidateCreate gr =
      GoResult.ret (some
        "Both exact and suffix match for hostname are not allowed. Only one must be specified") := by
  rw [ValidateCreate_eq, check_onlyHTTPVariant gr r h, hp]
  obtain ⟨⟨p, ⟨_ | e, _ | s⟩⟩⟩ := r <;>
    simp_all [validatePrefixAndHostName, hostnameIsZero, Errorf]

theorem C9_http_exact_and_suffix_rejected_witness :
    onlyHTTPVariant httpExactAndSuffixRoute.Spec exactAndSuffixHTTP ∧
      ValidateCreate httpExactAndSuffixRoute =
        GoResult.ret (some
          "Both exact and suffix match for hostname are not allowed. Only one must be specified") :=
  ⟨by decide,
    C9_http_exact_and_suffix_rejected httpExactAndSuffixRoute exactAndSuffixHTTP (by decide)
      (by decide) (by decide) (by decide)⟩

/-- C10: `validatePrefixAndHostName` returns no error exactly when the prefix is
present, or the prefix is absent and exactly one of hostname.Exact and hostname.Suffix
is set; a present prefix is accepted whatever its value and whatever the hostname. -/
theorem C10_shared_rule_accepts_iff :
    (∀ (pfx : Option String) (hostname : Hostname),
      validatePrefixAndHostName pfx hostname = none ↔
        (pfx ≠ none ∨
          (pfx = none ∧
            ((hostname.Exact ≠ none ∧ hostname.Suffix = none) ∨
              (hostname.Exact = none ∧ hostname.Suffix ≠ none))))) ∧
    (∀ (p : String) (hostname : Hostname),
      validatePrefixAndHostName (some p) hostname = none) := by
  constructor
  · intro pfx hostname
    rcases pfx with _ | p <;> rcases hostname with ⟨_ | e, _ | s⟩ <;>
      simp [validatePrefixAndHostName, hostnameIsZero, Errorf]
  · intro p hostname
    simp [validatePrefixAndHostName]

/-! ## Update: the immutable fields -/

/-- C2: `ValidateUpdate` (and `enforceFieldsImmutability`, which it calls) accepts a
new/old pair exactly when Spec.AWSName, Spec.MeshRef and Spec.VirtualGatewayRef have
equal values in both; so a pair that differs only in the metadata or in the route
variants is accepted. -/
theorem C2_update_accepts_iff_immutable_fields_equal :
    (∀ newGR oldGR : GatewayRoute,
      (ValidateUpdate newGR oldGR = none ↔
        (newGR.Spec.AWSName = oldGR.Spec.AWSName ∧ newGR.Spec.MeshRef = oldGR.Spec.MeshRef ∧
          newGR.Spec.VirtualGatewayRef = oldGR.Spec.VirtualGatewayRef)) ∧
      (enforceFieldsImmutability newGR oldGR = none ↔
        (newGR.Spec.AWSName = oldGR.Spec.AWSName ∧ newGR.Spec.MeshRef = oldGR.Spec.MeshRef ∧
          newGR.Spec.VirtualGatewayRef = oldGR.Spec.VirtualGatewayRef))) ∧
    (∀ (m₁ m₂ : ObjectMeta) (awsName : Option String) (meshRef : Option MeshReference)
        (vgRef : Option VirtualGatewayReference) (g₁ g₂ : Option GRPCGatewayRoute)
        (h₁ h₂ k₁ k₂ : Option HTTPGatewayRoute),
      ValidateUpdate
          { ObjectMeta := m₁,
            Spec := { AWSName := awsName, GRPCRoute := g₁, HTTP2Route := h₁, HTTPRoute := k₁,
                      VirtualGatewayRef := vgRef, MeshRef := meshRef } }
          { ObjectMeta := m₂,
            Spec := { AWSName := awsName, GRPCRoute := g₂, HTTP2Route := h₂, HTTPRoute := k₂,
                      VirtualGatewayRef := vgRef, MeshRef := meshRef } } = none) := by
  have key : ∀ newGR oldGR : GatewayRoute,
      enforceFieldsImmutability newGR oldGR = none ↔
        (newGR.Spec.AWSName = oldGR.Spec.AWSName ∧ newGR.Spec.MeshRef = oldGR.Spec.MeshRef ∧
          newGR.Spec.VirtualGatewayRef = oldGR.Spec.VirtualGatewayRef) := by
    intro newGR oldGR
    unfold enforceFieldsImmutability
    rw [changedImmutableFields_eq]
    unfold differingFieldPaths
    by_cases h₁ : newGR.Spec.AWSName = oldGR.Spec.AWSName <;>
    by_cases h₂ : newGR.Spec.MeshRef = oldGR.Spec.MeshRef <;>
    by_cases h₃ : newGR.Spec.VirtualGatewayRef = oldGR.Spec.VirtualGatewayRef <;>
    simp [h₁, h₂, h₃]
  have wrap : ∀ newGR oldGR : GatewayRoute,
      ValidateUpdate newGR oldGR = enforceFieldsImmutability newGR oldGR := by
    intro newGR oldGR
    unfold ValidateUpdate
    cases enforceFieldsImmutability newGR oldGR <;> rfl
  refine ⟨fun newGR oldGR => ⟨?_, key newGR oldGR⟩, ?_⟩
  · rw [wrap]; exact key newGR oldGR
  · intro m₁ m₂ awsName meshRef vgRef g₁ g₂ h₁ h₂ k₁ k₂
    rw [wrap]
    exact (key _ _).mpr ⟨rfl, rfl, rfl⟩

/-- C3: when at least one immutable field differs, `enforceFieldsImmutability` returns
an error whose message is "GatewayRoute update may not change these fields: " followed
by the paths of exactly the differing fields, in the order spec.awsName, spec.meshRef,
spec.virtualGatewayRef, joined by "," with no separator before the first or after the
last. -/
theorem C3_update_rejection_message (newGR oldGR : GatewayRoute)
    (h : newGR.Spec.AWSName ≠ oldGR.Spec.AWSName ∨ newGR.Spec.MeshRef ≠ oldGR.Spec.MeshRef ∨
      newGR.Spec.VirtualGatewayRef ≠ oldGR.Spec.VirtualGatewayRef) :
    enforceFieldsImmutability newGR oldGR =
        some ("GatewayRoute update may not change these fields: " ++
          String.intercalate "," (differingFieldPaths newGR oldGR)) ∧
      ValidateUpdate newGR oldGR = enforceFieldsImmutability newGR oldGR := by
  constructor
  · unfold enforceFieldsImmutability
    rw [changedImmutableFields_eq]
    unfold differingFieldPaths
    by_cases h₁ : newGR.Spec.AWSName = oldGR.Spec.AWSName <;>
    by_cases h₂ : newGR.Spec.MeshRef = oldGR.Spec.MeshRef <;>
    by_cases h₃ : newGR.Spec.VirtualGatewayRef = oldGR.Spec.VirtualGatewayRef
    · exact absurd h (by simp [h₁, h₂, h₃])
    all_goals simp only [h₁, h₂, h₃, if_true, if_false]
    all_goals decide
  · unfold ValidateUpdate
    cases enforceFieldsImmutability newGR oldGR <;> rfl

theorem C3_update_rejection_message_witness :
    (awsNameChangedRoute.Spec.AWSName ≠ oldTestRoute.Spec.AWSName ∨
        awsNameChangedRoute.Spec.MeshRef ≠ oldTestRoute.Spec.MeshRef ∨
        awsNameChangedRoute.Spec.VirtualGatewayRef ≠ oldTestRoute.Spec.VirtualGatewayRef) ∧
      enforceFieldsImmutability awsNameChangedRoute oldTestRoute =
        some "GatewayRoute update may not change these fields: spec.awsName" ∧
      enforceFieldsImmutability allChangedRoute oldTestRoute =
        some
          "GatewayRoute update may not change these fields: spec.awsName,spec.meshRef,spec.virtualGatewayRef" :=
  ⟨by decide,
    (C3_update_rejection_message awsNameChangedRoute oldTestRoute (by decide)).1.trans
      (by decide),
    (C3_update_rejection_message allChangedRoute oldTestRoute (by decide)).1.trans
      (by decide)⟩

/-! ## Create: rejection reasons, delegation and return -/

/-- C11: every error that `ValidateCreate` returns carries exactly one of the five fixed
messages "No matching route specified", "Either servicename or hostname must be
specified", "Either prefix or hostname must be specified", "Either exact or suffix match
for hostname must be specified", "Both exact and suffix match for hostname are not
allowed. Only one must be specified". -/
theorem C11_create_rejection_reasons (gr : GatewayRoute) (msg : String)
    (h : ValidateCreate gr = GoResult.ret (some msg)) :
    msg = "No matching route specified" ∨
      msg = "Either servicename or hostname must be specified" ∨
      msg = "Either prefix or hostname must be specified" ∨
      msg = "Either exact or suffix match for hostname must be specified" ∨
      msg = "Both exact and suffix match for hostname are not allowed. Only one must be specified" := by
  rw [ValidateCreate_eq] at h
  have http : ∀ spec, checkHTTPRoutes spec = GoResult.ret (some msg) →
      msg = "Either prefix or hostname must be specified" ∨
      msg = "Either exact or suffix match for hostname must be specified" ∨
      msg = "Both exact and suffix match for hostname are not allowed. Only one must be specified" := by
    intro spec hs
    obtain ⟨pfx, hostname, hv⟩ := checkHTTPRoutes_ret spec _ hs
    exact validatePrefixAndHostName_reasons pfx hostname msg hv
  unfold checkIfHostnameOrPrefixFieldExists at h
  simp only [Errorf] at h
  split at h
  · simp only [GoResult.ret.injEq, Option.some.injEq] at h
    exact Or.inl h.symm
  · split at h
    · split at h
      · simp only [GoResult.ret.injEq, Option.some.injEq] at h
        exact Or.inr (Or.inl h.symm)
      · exact Or.inr (Or.inr (http _ h))
    · exact Or.inr (Or.inr (http _ h))

theorem C11_create_rejection_reasons_witness :
    ValidateCreate grpcEmptyMatchRoute =
        GoResult.ret (some "Either servicename or hostname must be specified") ∧
      ("Either servicename or hostname must be specified" = "No matching route specified" ∨
        "Either servicename or hostname must be specified" =
          "Either servicename or hostname must be specified" ∨
        "Either servicename or hostname must be specified" =
          "Either prefix or hostname must be specified" ∨
        "Either servicename or hostname must be specified" =
          "Either exact or suffix match for hostname must be specified" ∨
        "Either servicename or hostname must be specified" =
          "Both exact and suffix match for hostname are not allowed. Only one must be specified") :=
  ⟨by decide, C11_create_rejection_reasons grpcEmptyMatchRoute _ (by decide)⟩

/-- C17: with GRPCRoute nil and HTTP2Route populated, `checkIfHostnameOrPrefixFieldExists`
returns the result of `validatePrefixAndHostName` on the Prefix and Hostname of
HTTP2Route's Match, whatever HTTPRoute holds; with only HTTPRoute populated it returns
the result of `validatePrefixAndHostName` on the Prefix and Hostname of HTTPRoute's
Match. -/
theorem C17_http_branches_delegate (gr : GatewayRoute) (r : HTTPGatewayRoute) :
    (gr.Spec.GRPCRoute = none → gr.Spec.HTTP2Route = some r →
      checkIfHostnameOrPrefixFieldExists gr =
        GoResult.ret (validatePrefixAndHostName r.Match.Prefix r.Match.Hostname)) ∧
    (gr.Spec.GRPCRoute = none → gr.Spec.HTTP2Route = none → gr.Spec.HTTPRoute = some r →
      checkIfHostnameOrPrefixFieldExists gr =
        GoResult.ret (validatePrefixAndHostName r.Match.Prefix r.Match.Hostname)) := by
  constructor
  · intro hg h2
    simp [checkIfHostnameOrPrefixFieldExists, checkHTTPRoutes, hg, h2]
  · intro hg h2 h1
    simp [checkIfHostnameOrPrefixFieldExists, checkHTTPRoutes, hg, h2, h1]

theorem C17_http_branches_delegate_witness :
    (http2EmptyMatchRoute.Spec.GRPCRoute = none ∧
        http2EmptyMatchRoute.Spec.HTTP2Route = some emptyMatchHTTP) ∧
      checkIfHostnameOrPrefixFieldExists http2EmptyMatchRoute =
        GoResult.ret (validatePrefixAndHostName none emptyHostname) ∧
      (httpExactAndSuffixRoute.Spec.GRPCRoute = none ∧
        httpExactAndSuffixRoute.Spec.HTTP2Route = none ∧
        httpExactAndSuffixRoute.Spec.HTTPRoute = some exactAndSuffixHTTP) ∧
      checkIfHostnameOrPrefixFieldExists httpExactAndSuffixRoute =
        GoResult.ret (validatePrefixAndHostName none
          { Exact := some "example.com", Suffix := some ".com" }) :=
  ⟨by decide,
    (C17_http_branches_delegate http2EmptyMatchRoute emptyMatchHTTP).1 (by decide) (by decide),
    by decide,
    (C17_http_branches_delegate httpExactAndSuffixRoute exactAndSuffixHTTP).2 (by decide)
      (by decide) (by decide)⟩

/-- C18: `checkIfHostnameOrPrefixFieldExists` does read the Match of a nil variant. On
the GRPC-only object with ServiceName "my-service" it reads `HTTPRoute.Match` with
HTTPRoute nil; in general the nil read happens exactly when GRPCRoute is populated and
passes its check while HTTP2Route and HTTPRoute are both nil. -/
theorem C18_nil_http_route_is_read :
    checkIfHostnameOrPrefixFieldExists grpcServiceNameRoute = GoResult.nilDeref ∧
      (∀ gr : GatewayRoute,
        checkIfHostnameOrPrefixFieldExists gr = GoResult.nilDeref ↔
          ((∃ g, gr.Spec.GRPCRoute = some g ∧
              ¬(g.Match.ServiceName = none ∧ g.Match.Hostname = emptyHostname)) ∧
            gr.Spec.HTTP2Route = none ∧ gr.Spec.HTTPRoute = none)) := by
  refine ⟨by decide, ?_⟩
  intro gr
  rcases hg : gr.Spec.GRPCRoute with _ | g <;> rcases h2 : gr.Spec.HTTP2Route with _ | r2 <;>
    rcases h1 : gr.Spec.HTTPRoute with _ | r1 <;>
    simp [checkIfHostnameOrPrefixFieldExists, checkHTTPRoutes, Errorf, hg, h2, h1,
      hostnameIsZero_iff]
  all_goals
    by_cases hz : g.Match.ServiceName = none ∧ g.Match.Hostname = emptyHostname
    · simp [hz]
    · simp [hz]

/-- C19: `validatePrefixAndHostName` never returns the error "Either exact or suffix
match for hostname must be specified": a Hostname is the zero value exactly when Exact
and Suffix are both unset, and then the check for "Either prefix or hostname must be
specified" has already returned. -/
theorem C19_exact_or_suffix_branch_unreachable :
    (∀ (pfx : Option String) (hostname : Hostname),
      validatePrefixAndHostName pfx hostname ≠
        some "Either exact or suffix match for hostname must be specified") ∧
    (∀ hostname : Hostname,
      hostnameIsZero hostname = true ↔ (hostname.Exact = none ∧ hostname.Suffix = none)) ∧
    (∀ hostname : Hostname, hostname.Exact = none → hostname.Suffix = none →
      validatePrefixAndHostName none hostname =
        some "Either prefix or hostname must be specified") := by
  refine ⟨?_, ?_, ?_⟩
  · intro pfx hostname
    rcases pfx with _ | p <;> rcases hostname with ⟨_ | e, _ | s⟩ <;>
      simp [validatePrefixAndHostName, hostnameIsZero, Errorf]
  · intro hostname
    rcases hostname with ⟨_ | e, _ | s⟩ <;> simp [hostnameIsZero]
  · intro hostname he hs
    simp [validatePrefixAndHostName, hostnameIsZero, Errorf, he, hs]

/-! ## Update: absent fields and symmetry -/

set_option maxRecDepth 100000 in
/-- C12: for each of AWSName, MeshRef and VirtualGatewayRef, when the field is nil in
exactly one of the two objects `enforceFieldsImmutability` rejects and the message
contains the path of the field; when it is nil in both, no message that
`enforceFieldsImmutability` returns contains the path. -/
theorem C12_absent_optional_fields (newGR oldGR : GatewayRoute) :
    (absentInExactlyOne newGR.Spec.AWSName oldGR.Spec.AWSName →
      ∃ msg, enforceFieldsImmutability newGR oldGR = some msg ∧ mentions msg "spec.awsName") ∧
    (absentInExactlyOne newGR.Spec.MeshRef oldGR.Spec.MeshRef →
      ∃ msg, enforceFieldsImmutability newGR oldGR = some msg ∧ mentions msg "spec.meshRef") ∧
    (absentInExactlyOne newGR.Spec.VirtualGatewayRef oldGR.Spec.VirtualGatewayRef →
      ∃ msg, enforceFieldsImmutability newGR oldGR = some msg ∧
        mentions msg "spec.virtualGatewayRef") ∧
    (newGR.Spec.AWSName = none → oldGR.Spec.AWSName = none →
      "spec.awsName" ∉ differingFieldPaths newGR oldGR ∧
      ∀ msg, enforceFieldsImmutability newGR oldGR = some msg → ¬mentions msg "spec.awsName") ∧
    (newGR.Spec.MeshRef = none → oldGR.Spec.MeshRef = none →
      "spec.meshRef" ∉ differingFieldPaths newGR oldGR ∧
      ∀ msg, enforceFieldsImmutability newGR oldGR = some msg → ¬mentions msg "spec.meshRef") ∧
    (newGR.Spec.VirtualGatewayRef = none → oldGR.Spec.VirtualGatewayRef = none →
      "spec.virtualGatewayRef" ∉ differingFieldPaths newGR oldGR ∧
      ∀ msg, enforceFieldsImmutability newGR oldGR = some msg →
        ¬mentions msg "spec.virtualGatewayRef") := by
  have e := enforceFieldsImmutability_eq newGR oldGR
  by_cases h₁ : newGR.Spec.AWSName = oldGR.Spec.AWSName <;>
  by_cases h₂ : newGR.Spec.MeshRef = oldGR.Spec.MeshRef <;>
  by_cases h₃ : newGR.Spec.VirtualGatewayRef = oldGR.Spec.VirtualGatewayRef
  all_goals
    simp only [differingFieldPaths, h₁, h₂, h₃, if_true, if_false, List.nil_append,
      List.append_nil, List.singleton_append, List.cons_append] at e
    simp only [differingFieldPaths, h₁, h₂, h₃, if_true, if_false, List.nil_append,
      List.append_nil, List.singleton_append, List.cons_append]
    rw [e]
    refine ⟨fun h => ?_, fun h => ?_, fun h => ?_, fun ha hb => ?_, fun ha hb => ?_,
      fun ha hb => ?_⟩
  all_goals
    first
    | exact absurd rfl (ne_of_absentInExactlyOne h)
    | exact absurd (ha.trans hb.symm) h₁
    | exact absurd (ha.trans hb.symm) h₂
    | exact absurd (ha.trans hb.symm) h₃
    | exact ⟨_, rfl, by decide⟩
    | (refine ⟨by decide, fun msg hm => ?_⟩
       cases hm
       try decide)

theorem C12_absent_optional_fields_witness :
    absentInExactlyOne noAWSNameRoute.Spec.AWSName oldTestRoute.Spec.AWSName ∧
      ∃ msg, enforceFieldsImmutability noAWSNameRoute oldTestRoute = some msg ∧
        mentions msg "spec.awsName" :=
  ⟨by decide, (C12_absent_optional_fields noAWSNameRoute oldTestRoute).1 (by decide)⟩

/-- C13: `enforceFieldsImmutability` gives the same outcome on (a, b) and on (b, a): the
same list of differing fields, hence both accept or both reject with the same message;
and so does `ValidateUpdate`. -/
theorem C13_update_check_symmetric (a b : GatewayRoute) :
    changedImmutableFields a b = changedImmutableFields b a ∧
      enforceFieldsImmutability a b = enforceFieldsImmutability b a ∧
      ValidateUpdate a b = ValidateUpdate b a := by
  have hc : changedImmutableFields a b = changedImmutableFields b a := by
    rw [changedImmutableFields_eq, changedImmutableFields_eq, differingFieldPaths_comm]
  have he : enforceFieldsImmutability a b = enforceFieldsImmutability b a := by
    unfold enforceFieldsImmutability
    rw [hc]
  refine ⟨hc, he, ?_⟩
  unfold ValidateUpdate
  rw [he]

/-! ## Delete -/

/-- C14: `ValidateDelete` returns no error on every object; in particular on a
GatewayRoute that `ValidateCreate` rejects. -/
theorem C14_delete_always_accepted :
    (∀ (α : Type) (obj : α), ValidateDelete obj = none) ∧
      ValidateCreate noVariantRoute = GoResult.ret (some "No matching route specified") ∧
      ValidateDelete noVariantRoute = none :=
  ⟨fun _ _ => rfl, by decide, rfl⟩

/-! ## The pod store wrapper -/

/-- C15: when the lookup succeeds and yields pods only, `ListPodsWithMatchingLabels`
returns no error and a list whose Items are all the looked-up pods in lookup order when
`opts.LabelSelector` is nil, and otherwise the looked-up pods whose labels the selector
matches, in lookup order. The lookup is the namespace index at `opts.Namespace` when
that is non-empty, and the full list of the store otherwise. -/
theorem C15_list_pods_filters_in_order (store : DataStore) (namespaceIndex : String)
    (opts : ListOptions) (pods : List Pod)
    (hindex : opts.Namespace ≠ "" →
      store.ByIndex namespaceIndex opts.Namespace = (pods.map CacheItem.pod, none))
    (hlist : opts.Namespace = "" → store.List = pods.map CacheItem.pod) :
    ListPodsWithMatchingLabels store namespaceIndex opts =
      (some { Items :=
          match opts.LabelSelector with
          | none => pods
          | some sel => pods.filter (fun p => sel p.Labels) },
        none) := by
  unfold ListPodsWithMatchingLabels
  by_cases hns : opts.Namespace = ""
  · have hl := hlist hns
    simp only [hns, bne_self_eq_false, Bool.false_eq_true, if_false, hl]
    rw [collectPods_pods]
    cases opts.LabelSelector <;> simp
  · have hi := hindex hns
    have hb : (opts.Namespace != "") = true := by simpa using hns
    simp only [hb, if_true, hi]
    rw [collectPods_pods]
    cases opts.LabelSelector <;> simp

theorem C15_list_pods_filters_in_order_witness :
    ListPodsWithMatchingLabels testStore "namespace"
        { Namespace := "awesome-ns", LabelSelector := some appWebSelector } =
      (some { Items := [webPod, webPod1] }, none) :=
  C15_list_pods_filters_in_order testStore "namespace"
    { Namespace := "awesome-ns", LabelSelector := some appWebSelector }
    [webPod, dbPod, webPod1] (fun _ => rfl) (fun h => absurd h (by decide))

/-- C16: `GetPod` looks up the key "<namespace>/<name>". When the store returns an error,
`GetPod` returns that error and no pod; when the store reports found=false without
error, `GetPod` returns no pod and the error "failed to find pod <namespace>/<name>";
when the store reports found=true without error and the stored object is a pod,
`GetPod` returns that pod and no error. A missing key and a failed lookup both reach the
caller as errors. -/
theorem C16_get_pod_outcomes (store : DataStore) (ns name : String) :
    (∀ obj found err, store.GetByKey (ns ++ "/" ++ name) = (obj, found, some err) →
      GetPod store ns name = AssertResult.ret (none, some err)) ∧
    (∀ obj, store.GetByKey (ns ++ "/" ++ name) = (obj, false, none) →
      GetPod store ns name =
        AssertResult.ret (none, some ("failed to find pod " ++ ns ++ "/" ++ name))) ∧
    (∀ p, store.GetByKey (ns ++ "/" ++ name) = (some (CacheItem.pod p), true, none) →
      GetPod store ns name = AssertResult.ret (some p, none)) := by
  refine ⟨fun obj found err h => ?_, fun obj h => ?_, fun p h => ?_⟩
  · simp [GetPod, NamespacedNameString, h]
  · unfold GetPod NamespacedNameString
    simp only [h]
    simp [String.append_assoc]
  · simp [GetPod, NamespacedNameString, h]

theorem C16_get_pod_outcomes_witness :
    GetPod testStore "broken" "key" = AssertResult.ret (none, some "index corrupted") ∧
      GetPod testStore "awesome-ns" "web-9" =
        AssertResult.ret (none, some "failed to find pod awesome-ns/web-9") ∧
      GetPod testStore "awesome-ns" "web-0" = AssertResult.ret (some webPod, none) :=
  ⟨(C16_get_pod_outcomes testStore "broken" "key").1 none false "index corrupted" (by decide),
    (C16_get_pod_outcomes testStore "awesome-ns" "web-9").2.1 none (by decide),
    (C16_get_pod_outcomes testStore "awesome-ns" "web-0").2.2 webPod (by decide)⟩


/-- Counterexample to C16 as stated: the store finds, without error, an object that is
not a pod under the key "awesome-ns/svc"; `GetPod` does not return a pod and no error,
it does not return at all, because the type assertion of line 46 panics. -/
theorem C16_counterexample :
    svcStore.GetByKey ("awesome-ns" ++ "/" ++ "svc") =
        (some (CacheItem.other "*v1.Service"), true, none) ∧
      GetPod svcStore "awesome-ns" "svc" = AssertResult.typeAssertPanic ∧
      ¬∃ r, GetPod svcStore "awesome-ns" "svc" = AssertResult.ret r := by
  refine ⟨by decide, by decide, ?_⟩
  rintro ⟨r, hr⟩
  have hp : GetPod svcStore "awesome-ns" "svc" = AssertResult.typeAssertPanic := by decide
  rw [hp] at hr
  cases hr

end AppMesh
